import Mathlib

/-!
Verification development for the leetfetch plugin core.

The embedding follows the current sources:
the ProblemLogWriter in src/writer.ts (first segment),
the BaseManager in src/bases.ts,
and the LeetCodeAPI client in src/unnamed/part_001 (first segment, the
current leetcode.ts with CSRF handling, limit clamping and the privacy cap).

Network effects are modelled by oracles: a fetch operation receives a
function describing what the remote returns for each request, and returns
an Except value (error = the JS function throws).  The fetchAllSubmissions
pagination loop, a while loop in the source, is modelled with explicit
fuel; running out of fuel is reported as a distinct outcome so that
non-termination is observable.
-/

/-- Status field of a problem record ("Solved" | "Attempted" | "Todo"). -/
inductive ProblemStatus where
  | solved
  | attempted
  | todo
deriving DecidableEq, Repr

/-- The LeetCodeProblem interface (src/unnamed/part_001 lines 3-20); the
optional presentation fields not used by any operation modelled here are
omitted.  JS numbers are modelled as Int. -/
structure LeetCodeProblem where
  id : Int
  title : String
  titleSlug : String
  difficulty : String
  timestamp : Int
  topics : List String
  url : String
  status : ProblemStatus
  language : String
  submissionId : Int
deriving DecidableEq, Repr

/-- Result of fetchProblemDetails: a problem record without timestamp and
status (Omit in the source). -/
structure ProblemDetails where
  id : Int
  title : String
  titleSlug : String
  difficulty : String
  topics : List String
  url : String
  description : String
deriving DecidableEq, Repr

/-- Error kinds of LeetCodeAPIError (src/unnamed/part_001 line 46). -/
inductive ErrorKind where
  | NETWORK
  | CSRF
  | AUTH
  | RATE_LIMIT
  | NOT_FOUND
  | UNKNOWN
deriving DecidableEq, Repr

/-- The LeetCodeAPIError class (src/unnamed/part_001 lines 43-53). -/
structure LeetCodeAPIError where
  message : String
  kind : ErrorKind
  statusCode : Option Int
  retryable : Bool
deriving DecidableEq, Repr

/- ===================== writer / sync coordinator ===================== -/

/-- Metadata cache of one problem note: the problem underscore id frontmatter
field, present and numeric or not (src/bases.ts getExistingProblemIds reads
cache.frontmatter.problem underscore id and keeps values of type number). -/
structure NoteCache where
  problem_id : Option Int
deriving DecidableEq, Repr

/-- BaseManager.getExistingProblemIds (src/bases.ts lines 462-482): collect
the numeric problem ids found in the frontmatter of the notes folder. -/
def getExistingProblemIds (files : List NoteCache) : List Int :=
  files.filterMap (fun f => f.problem_id)

/-- State owned by ProblemLogWriter: the in-memory processedProblems set of
title slugs, and its persisted copy in plugin data
(src/writer.ts lines 43, 322-349). -/
structure WriterStore where
  processedProblems : List String
  persisted : List String
deriving DecidableEq, Repr

/-- The filter inside updateProblemBase (src/writer.ts lines 91-94): a record
is new iff its id is absent from the existing-ids snapshot and its slug is
absent from processedProblems. -/
def newProblemsOf (existingProblemIds : List Int) (processed : List String)
    (problems : List LeetCodeProblem) : List LeetCodeProblem :=
  problems.filter (fun p =>
    !(existingProblemIds.contains p.id) && !(processed.contains p.titleSlug))

/-- ProblemLogWriter.updateProblemBase (src/writer.ts lines 86-113).
useBasesFormat mirrors settings.useBasesFormat; materializeOk = false means
updateBasesFormat threw (the error is rethrown, so updateProblemBase raises
and no record is marked processed).  On success the new records are marked
processed and the set is saved (persisted := processedProblems). -/
def updateProblemBase (useBasesFormat materializeOk : Bool)
    (files : List NoteCache) (st : WriterStore)
    (problems : List LeetCodeProblem) :
    Except Unit (List LeetCodeProblem × WriterStore) :=
  let existingProblemIds := getExistingProblemIds files
  let newProblems := newProblemsOf existingProblemIds st.processedProblems problems
  if newProblems.isEmpty then
    Except.ok ([], st)
  else if useBasesFormat then
    if materializeOk then
      let processed := st.processedProblems ++ newProblems.map (fun p => p.titleSlug)
      Except.ok (newProblems, { processedProblems := processed, persisted := processed })
    else
      Except.error ()
  else
    -- Notice shown, nothing marked processed, empty list returned
    Except.ok ([], st)

/-- ProblemLogWriter.loadProcessedProblems (src/writer.ts lines 322-339):
load the persisted slug set into memory; if the individual-notes folder does
not exist, clear the set and save the cleared set. -/
def loadProcessedProblems (folderExists : Bool)
    (persistedData : Option (List String)) : WriterStore :=
  let mem := match persistedData with
    | some l => l
    | none => []
  if folderExists then
    { processedProblems := mem, persisted := persistedData.getD [] }
  else
    { processedProblems := [], persisted := [] }

/-- ProblemLogWriter.clearProcessedProblems (src/writer.ts lines 383-386). -/
def clearProcessedProblems (_st : WriterStore) : WriterStore :=
  { processedProblems := [], persisted := [] }

/- ===================== remote fetch client ===================== -/

/-- The APISettings held by the client (src/unnamed/part_001 lines 34-41);
maxRetries is passed to exponentialBackoff explicitly below. -/
structure APISettings where
  username : String
  sessionToken : Option String
  recentSubmissionsLimit : Int
  maxRetries : Nat
deriving DecidableEq, Repr

/-- Whitespace recognized by the trim used in the guards. -/
def isWhitespaceChar (c : Char) : Bool :=
  c = ' ' || c = '\t' || c = '\n' || c = '\r'

/-- JS String.prototype.trim as used by the guards, modelled on the
character list so that it evaluates by reduction. -/
def jsTrim (s : String) : String :=
  String.mk (((s.data.dropWhile isWhitespaceChar).reverse.dropWhile
    isWhitespaceChar).reverse)

/-- A JS optional-chained emptiness test: s?.trim() is falsy, i.e. the
value is absent or whitespace-only. -/
def isBlank (s : Option String) : Bool :=
  match s with
  | none => true
  | some v => jsTrim v == ""

/-- The aggregate error raised when the retry budget is exhausted
(src/unnamed/part_001 lines 271-276). -/
def aggregateBackoffError (maxRetries : Nat) (lastError : LeetCodeAPIError) :
    LeetCodeAPIError :=
  { message := "Max retries (" ++ toString maxRetries ++ ") exceeded. Last error: "
      ++ lastError.message,
    kind := ErrorKind.UNKNOWN, statusCode := none, retryable := false }

/-- Trace of one exponentialBackoff run: the outcome, how many attempts were
made, and the delays slept between consecutive attempts. -/
structure BackoffTrace (α : Type) where
  result : Except LeetCodeAPIError α
  attempts : Nat
  delays : List Nat
deriving Repr

/-- The retry loop body of exponentialBackoff (src/unnamed/part_001 lines
247-269).  op gives the outcome of the attempt with the given index; jitter
gives the value of Math.random() * 1000 observed before each sleep;
remaining counts the attempts still allowed after the current one
(maxRetries - attempt in the source). -/
def expBackoffGo (op : Nat → Except LeetCodeAPIError α) (jitter : Nat → Nat)
    (baseDelay maxRetries : Nat) : Nat → Nat → BackoffTrace α
  | remaining, attempt =>
    match op attempt with
    | Except.ok v => { result := Except.ok v, attempts := 1, delays := [] }
    | Except.error e =>
      if !e.retryable then
        { result := Except.error e, attempts := 1, delays := [] }
      else
        match remaining with
        | 0 =>
          { result := Except.error (aggregateBackoffError maxRetries e),
            attempts := 1, delays := [] }
        | r + 1 =>
          let d := baseDelay * 2 ^ attempt + jitter attempt
          let t := expBackoffGo op jitter baseDelay maxRetries r (attempt + 1)
          { result := t.result, attempts := t.attempts + 1, delays := d :: t.delays }

/-- LeetCodeAPI.exponentialBackoff (src/unnamed/part_001 lines 240-277):
attempts 0 .. maxRetries, aborting immediately on a non-retryable error,
sleeping baseDelay * 2 ^ attempt + jitter between attempts, and raising an
aggregate error naming the last cause once the budget is exhausted. -/
def exponentialBackoff (op : Nat → Except LeetCodeAPIError α)
    (jitter : Nat → Nat) (maxRetries : Nat) (baseDelay : Nat) : BackoffTrace α :=
  expBackoffGo op jitter baseDelay maxRetries maxRetries 0

/-- One entry of recentAcSubmissionList as used by fetchRecentSubmissions;
id is the numeric value of parseInt(submission.id) (none models NaN). -/
structure RecentSubmission where
  id : Option Int
  titleSlug : String
  timestamp : Int
  lang : String
deriving DecidableEq, Repr

/-- The AUTH error raised when no username is configured
(src/unnamed/part_001 line 562). -/
def usernameRequiredError : LeetCodeAPIError :=
  { message := "Username is required", kind := ErrorKind.AUTH,
    statusCode := none, retryable := false }

/-- The retryable aggregate error raised when a batch yields zero problem
details (src/unnamed/part_001 lines 630-637). -/
def noDataError (failedProblems : List String) : LeetCodeAPIError :=
  { message := "Failed to fetch any problem details. Errors: "
      ++ String.intercalate "; " failedProblems,
    kind := ErrorKind.UNKNOWN, statusCode := none, retryable := true }

/-- JS truthiness of the optional limit argument: limit or the configured
recentSubmissionsLimit when limit is absent or 0
(the expression limit or settings.recentSubmissionsLimit). -/
def jsOrDefault (limit : Option Int) (configured : Int) : Int :=
  match limit with
  | some v => if v = 0 then configured else v
  | none => configured

/-- The effective request limit of fetchRecentSubmissions
(src/unnamed/part_001 line 565):
Math.max(1, Math.min(limit or settings.recentSubmissionsLimit, 100)). -/
def submissionLimitOf (limit : Option Int) (configured : Int) : Int :=
  max 1 (min (jsOrDefault limit configured) 100)

/-- Loop accumulator of fetchRecentSubmissions: collected problems, slugs
seen within this call, the in-memory processedQuestionIds set, and the
collected failure descriptions. -/
structure RecentAcc where
  problems : List LeetCodeProblem
  seenTitleSlugs : List String
  processedIds : List Int
  failedProblems : List String
deriving DecidableEq, Repr

/-- Body of the per-submission loop of fetchRecentSubmissions
(src/unnamed/part_001 lines 594-628): skip slugs already seen in this call,
fetch details (collecting a failure description if that raises), skip
records whose resolved id is already processed when filterProcessed is set,
otherwise record the problem and mark it processed. -/
def recentStep (detail : String → Except LeetCodeAPIError ProblemDetails)
    (filterProcessed : Bool) (acc : RecentAcc) (submission : RecentSubmission) :
    RecentAcc :=
  if acc.seenTitleSlugs.contains submission.titleSlug then acc
  else
    match detail submission.titleSlug with
    | Except.error e =>
      { acc with failedProblems :=
          acc.failedProblems ++ [submission.titleSlug ++ ": " ++ e.message] }
    | Except.ok problemDetails =>
      if filterProcessed && acc.processedIds.contains problemDetails.id then acc
      else
        let p : LeetCodeProblem :=
          { id := problemDetails.id, title := problemDetails.title,
            titleSlug := problemDetails.titleSlug,
            difficulty := problemDetails.difficulty,
            timestamp := submission.timestamp, topics := problemDetails.topics,
            url := problemDetails.url, status := ProblemStatus.solved,
            language := submission.lang, submissionId := submission.id.getD 0 }
        { problems := acc.problems ++ [p],
          seenTitleSlugs := acc.seenTitleSlugs ++ [submission.titleSlug],
          processedIds :=
            if filterProcessed then acc.processedIds ++ [problemDetails.id]
            else acc.processedIds,
          failedProblems := acc.failedProblems }

/-- The descending-timestamp order used by the final sorts (the comparator
b.timestamp - a.timestamp).  Array sort is specified as a stable sort, so it
is modelled by the stable insertion sort, which evaluates by reduction. -/
def byTimestampDesc (a b : LeetCodeProblem) : Prop :=
  b.timestamp ≤ a.timestamp

instance : DecidableRel byTimestampDesc :=
  fun a b => Int.decLe b.timestamp a.timestamp

instance : IsTotal LeetCodeProblem byTimestampDesc :=
  ⟨fun a b => le_total b.timestamp a.timestamp⟩

instance : IsTrans LeetCodeProblem byTimestampDesc :=
  ⟨fun _ _ _ hab hbc => le_trans hbc hab⟩

/-- LeetCodeAPI.fetchRecentSubmissions (src/unnamed/part_001 lines 557-644).
recentList is the remote answer as a function of the effective limit (none
models a response without recentAcSubmissionList); detail is the
fetchProblemDetails oracle.  Returns the collected problems sorted by
descending timestamp together with the updated processedQuestionIds set. -/
def fetchRecentSubmissions (api : APISettings) (processedQuestionIds : List Int)
    (recentList : Int → Except LeetCodeAPIError (Option (List RecentSubmission)))
    (detail : String → Except LeetCodeAPIError ProblemDetails)
    (filterProcessed : Bool) (limit : Option Int) :
    Except LeetCodeAPIError (List LeetCodeProblem × List Int) :=
  if jsTrim api.username == "" then
    Except.error usernameRequiredError
  else
    let submissionLimit := submissionLimitOf limit api.recentSubmissionsLimit
    match recentList submissionLimit with
    | Except.error e => Except.error e
    | Except.ok none => Except.ok ([], processedQuestionIds)
    | Except.ok (some list) =>
      let acc := list.foldl (recentStep detail filterProcessed)
        { problems := [], seenTitleSlugs := [],
          processedIds := processedQuestionIds, failedProblems := [] }
      if !acc.failedProblems.isEmpty && acc.problems.isEmpty then
        Except.error (noDataError acc.failedProblems)
      else
        Except.ok (List.insertionSort byTimestampDesc acc.problems, acc.processedIds)

/-- One entry of submissionList.submissions as used by fetchAllSubmissions;
id is the numeric value of parseInt(sub.id). -/
structure SubmissionEntry where
  id : Option Int
  titleSlug : String
  timestamp : Int
  statusDisplay : String
  lang : String
  runtime : String
  memory : String
deriving DecidableEq, Repr

/-- One page of the paginated submissionList response; submissions = none
models a page without a submissions array (the loop breaks on it). -/
structure SubmissionPage where
  lastKey : Option String
  hasNext : Bool
  submissions : Option (List SubmissionEntry)
deriving DecidableEq, Repr

/-- The consecutive-page-failure bound of fetchAllSubmissions
(src/unnamed/part_001 line 681). -/
def maxConsecutiveFailures : Nat := 3

/-- The hard ceiling on total processed problems
(src/unnamed/part_001 line 683). -/
def maxProblems : Nat := 3500

/-- The non-retryable aggregate error raised after maxConsecutiveFailures
consecutive page failures (src/unnamed/part_001 lines 751-756). -/
def consecutiveFailuresError (lastError : LeetCodeAPIError) : LeetCodeAPIError :=
  { message := "Failed to fetch submissions after "
      ++ toString maxConsecutiveFailures
      ++ " consecutive failures. Last error: " ++ lastError.message,
    kind := ErrorKind.UNKNOWN, statusCode := none, retryable := false }

/-- Accumulator of the per-submission processing inside fetchAllSubmissions:
collected problems, deduplication slugs, failure descriptions and the count
of processed problems (the privacy-cap counter). -/
structure AllAcc where
  problems : List LeetCodeProblem
  processedTitleSlugs : List String
  failedProblems : List String
  totalProcessed : Nat
deriving DecidableEq, Repr

/-- Body of the per-accepted-submission loop of fetchAllSubmissions
(src/unnamed/part_001 lines 707-730). -/
def allStep (detail : String → Except LeetCodeAPIError ProblemDetails)
    (acc : AllAcc) (sub : SubmissionEntry) : AllAcc :=
  if acc.processedTitleSlugs.contains sub.titleSlug then acc
  else
    match detail sub.titleSlug with
    | Except.ok d =>
      let p : LeetCodeProblem :=
        { id := d.id, title := d.title, titleSlug := d.titleSlug,
          difficulty := d.difficulty, timestamp := sub.timestamp,
          topics := d.topics, url := d.url, status := ProblemStatus.solved,
          language := sub.lang, submissionId := sub.id.getD 0 }
      { problems := acc.problems ++ [p],
        processedTitleSlugs := acc.processedTitleSlugs ++ [sub.titleSlug],
        failedProblems := acc.failedProblems,
        totalProcessed := acc.totalProcessed + 1 }
    | Except.error e =>
      { acc with failedProblems :=
          acc.failedProblems ++ [sub.titleSlug ++ ": " ++ e.message] }

/-- Mutable state of the while loop of fetchAllSubmissions, plus a counter
of page requests issued so far. -/
structure FetchAllState where
  acc : AllAcc
  offset : Int
  hasNext : Bool
  lastKey : Option String
  consecutiveFailures : Nat
  requests : Nat
deriving DecidableEq, Repr

/-- Outcome of running the pagination loop with a given amount of fuel:
normal exit, a thrown error, or fuel exhausted (the source loop is still
running after that many iterations). -/
inductive FetchAllLoopOutcome where
  | done (s : FetchAllState)
  | thrown (e : LeetCodeAPIError)
  | fuelOut (s : FetchAllState)
deriving DecidableEq, Repr

/-- The while loop of fetchAllSubmissions (src/unnamed/part_001 lines
685-762), fuel-indexed.  pageOracle gives the remote answer to the n-th page
request issued; detail is the fetchProblemDetails oracle. -/
def fetchAllLoop (pageOracle : Nat → Except LeetCodeAPIError SubmissionPage)
    (detail : String → Except LeetCodeAPIError ProblemDetails) :
    Nat → FetchAllState → FetchAllLoopOutcome
  | 0, s => FetchAllLoopOutcome.fuelOut s
  | Nat.succ n, s =>
    if s.hasNext && decide (s.consecutiveFailures < maxConsecutiveFailures)
        && decide (s.acc.totalProcessed < maxProblems) then
      match pageOracle s.requests with
      | Except.ok page =>
        match page.submissions with
        | none =>
          -- no submissions array in the response page: break
          FetchAllLoopOutcome.done { s with requests := s.requests + 1 }
        | some subs =>
          let accepted := subs.filter (fun sub => sub.statusDisplay == "Accepted")
          let acc := accepted.foldl (allStep detail) s.acc
          fetchAllLoop pageOracle detail n
            { acc := acc,
              offset := s.offset + subs.length,
              hasNext := page.hasNext,
              lastKey := page.lastKey,
              consecutiveFailures := 0,
              requests := s.requests + 1 }
      | Except.error e =>
        let cf := s.consecutiveFailures + 1
        if maxConsecutiveFailures ≤ cf then
          FetchAllLoopOutcome.thrown (consecutiveFailuresError e)
        else
          fetchAllLoop pageOracle detail n
            { s with consecutiveFailures := cf, requests := s.requests + 1 }
    else
      FetchAllLoopOutcome.done s

/-- Initial loop state of fetchAllSubmissions
(src/unnamed/part_001 lines 672-683). -/
def initialFetchAllState : FetchAllState :=
  { acc := { problems := [], processedTitleSlugs := [], failedProblems := [],
             totalProcessed := 0 },
    offset := 0, hasNext := true, lastKey := none,
    consecutiveFailures := 0, requests := 0 }

/-- Final outcome of fetchAllSubmissions: the returned list (with the
updated processedQuestionIds set), a thrown error, or fuel exhaustion. -/
inductive FetchAllResult where
  | done (problems : List LeetCodeProblem) (ids : List Int)
  | thrown (e : LeetCodeAPIError)
  | fuelOut
deriving DecidableEq, Repr

/-- Injection of a fetchRecentSubmissions outcome into a fetchAllSubmissions
outcome, used by the no-session fallback. -/
def exceptToResult :
    Except LeetCodeAPIError (List LeetCodeProblem × List Int) → FetchAllResult
  | Except.ok (l, ids) => FetchAllResult.done l ids
  | Except.error e => FetchAllResult.thrown e

/-- LeetCodeAPI.fetchAllSubmissions (src/unnamed/part_001 lines 646-772).
Without a session token it degrades to
fetchRecentSubmissions(false, 100); otherwise it runs the pagination loop
and returns the collected problems sorted by descending timestamp.
fetchAllSubmissions never touches processedQuestionIds. -/
def fetchAllSubmissions (api : APISettings) (processedQuestionIds : List Int)
    (recentList : Int → Except LeetCodeAPIError (Option (List RecentSubmission)))
    (detail : String → Except LeetCodeAPIError ProblemDetails)
    (pageOracle : Nat → Except LeetCodeAPIError SubmissionPage)
    (fuel : Nat) : FetchAllResult :=
  if isBlank api.sessionToken then
    exceptToResult
      (fetchRecentSubmissions api processedQuestionIds recentList detail false (some 100))
  else
    match fetchAllLoop pageOracle detail fuel initialFetchAllState with
    | FetchAllLoopOutcome.done s =>
      FetchAllResult.done (List.insertionSort byTimestampDesc s.acc.problems)
        processedQuestionIds
    | FetchAllLoopOutcome.thrown e => FetchAllResult.thrown e
    | FetchAllLoopOutcome.fuelOut _ => FetchAllResult.fuelOut

/-- The raw submissionDetails GraphQL payload consumed by
fetchSubmissionDetails; optional fields model absent JSON values. -/
structure RawSubmissionDetail where
  id : Int
  code : String
  langName : Option String
  runtime : String
  memory : String
  runtimePercentile : Option Int
  memoryPercentile : Option Int
  totalCorrect : Option Int
  totalTestcases : Option Int
  timestamp : Int
deriving DecidableEq, Repr

/-- The LeetCodeSubmissionDetail interface (src/unnamed/part_001 lines
22-32); the percentile numbers are modelled as Int. -/
structure SubmissionDetail where
  id : Int
  code : String
  lang : String
  runtime : String
  memory : String
  runtimePercentile : Int
  memoryPercentile : Int
  statusDisplay : String
  timestamp : Int
deriving DecidableEq, Repr

/-- The non-retryable error raised on an invalid submission id
(src/unnamed/part_001 line 835). -/
def validSubmissionIdError : LeetCodeAPIError :=
  { message := "Valid submission ID is required", kind := ErrorKind.UNKNOWN,
    statusCode := none, retryable := false }

/-- LeetCodeAPI.fetchSubmissionDetails (src/unnamed/part_001 lines 826-882).
oracle is the remote answer to the one request issued (ok none models a
response without submissionDetails).  Without a session token the call
returns undefined before validating the id; any request failure is caught
and turned into undefined. -/
def fetchSubmissionDetails (api : APISettings)
    (oracle : Except LeetCodeAPIError (Option RawSubmissionDetail))
    (submissionId : Int) :
    Except LeetCodeAPIError (Option SubmissionDetail) :=
  if isBlank api.sessionToken then
    Except.ok none
  else if submissionId ≤ 0 then
    Except.error validSubmissionIdError
  else
    match oracle with
    | Except.error _ => Except.ok none
    | Except.ok none => Except.ok none
    | Except.ok (some submission) =>
      Except.ok (some
        { id := submission.id, code := submission.code,
          lang := submission.langName.getD "Unknown",
          runtime := submission.runtime, memory := submission.memory,
          runtimePercentile := submission.runtimePercentile.getD 0,
          memoryPercentile := submission.memoryPercentile.getD 0,
          statusDisplay :=
            if submission.totalCorrect = submission.totalTestcases then "Solved"
            else "Attempted",
          timestamp := submission.timestamp })

/- ===================== concrete inputs for the scenarios ===================== -/

/-- The two-sum record of the concrete reconcile scenario (id 1). -/
def twoSumRecord : LeetCodeProblem :=
  { id := 1, title := "Two Sum", titleSlug := "two-sum", difficulty := "Easy",
    timestamp := 100, topics := [], url := "", status := ProblemStatus.solved,
    language := "", submissionId := 0 }

/-- The three-sum record of the concrete reconcile scenario (id 2). -/
def threeSumRecord : LeetCodeProblem :=
  { id := 2, title := "Three Sum", titleSlug := "three-sum", difficulty := "Medium",
    timestamp := 90, topics := [], url := "", status := ProblemStatus.solved,
    language := "", submissionId := 0 }

/-- A retryable network error used as a concrete failing outcome. -/
def networkRetryError : LeetCodeAPIError :=
  { message := "boom", kind := ErrorKind.NETWORK, statusCode := none,
    retryable := true }

/-- An operation that fails with a retryable error on every attempt. -/
def alwaysFailOp : Nat → Except LeetCodeAPIError Unit :=
  fun _ => Except.error networkRetryError

/-- Client settings without a session token. -/
def apiNoToken : APISettings :=
  { username := "user", sessionToken := none, recentSubmissionsLimit := 20,
    maxRetries := 3 }

/-- Client settings with a session token. -/
def apiWithToken : APISettings :=
  { username := "user", sessionToken := some "tok", recentSubmissionsLimit := 20,
    maxRetries := 3 }

/-- Details of the problem with slug a, resolving to id 1. -/
def problemDetailsA : ProblemDetails :=
  { id := 1, title := "A", titleSlug := "a", difficulty := "Easy", topics := [],
    url := "", description := "" }

/-- A detail oracle where slug a succeeds (resolving to id 1) and every other
slug fails with a retryable error. -/
def detailAB : String → Except LeetCodeAPIError ProblemDetails := fun s =>
  if s == "a" then Except.ok problemDetailsA else Except.error networkRetryError

/-- A two-submission batch with the slugs a and b. -/
def recentSubsAB : List RecentSubmission :=
  [{ id := some 10, titleSlug := "a", timestamp := 5, lang := "" },
   { id := some 11, titleSlug := "b", timestamp := 4, lang := "" }]

/-- A recent-submission response with the two slugs a and b. -/
def recentListAB : Int → Except LeetCodeAPIError (Option (List RecentSubmission)) :=
  fun _ => Except.ok (some recentSubsAB)

/-- A detail oracle that always fails with a retryable error. -/
def alwaysFailDetail : String → Except LeetCodeAPIError ProblemDetails :=
  fun _ => Except.error networkRetryError

/-- A remote answer without a recentAcSubmissionList value. -/
def emptyRecentList : Int → Except LeetCodeAPIError (Option (List RecentSubmission)) :=
  fun _ => Except.ok none

/-- A page oracle whose every request fails. -/
def failPageOracle : Nat → Except LeetCodeAPIError SubmissionPage :=
  fun _ => Except.error networkRetryError

/-- Problem details resolving a slug to a fixed record. -/
def slugDetails (s : String) : ProblemDetails :=
  { id := 0, title := s, titleSlug := s, difficulty := "Easy", topics := [],
    url := "", description := "" }

/-- A detail oracle that always succeeds. -/
def detailBySlug : String → Except LeetCodeAPIError ProblemDetails :=
  fun s => Except.ok (slugDetails s)

/-- An accepted submission entry. -/
def acceptedEntry (n : Int) (slug : String) (ts : Int) : SubmissionEntry :=
  { id := some n, titleSlug := slug, timestamp := ts, statusDisplay := "Accepted",
    lang := "", runtime := "", memory := "" }

/-- A paginated source that reports hasNext = false on its third page. -/
def threePageOracle : Nat → Except LeetCodeAPIError SubmissionPage := fun n =>
  if n = 0 then
    Except.ok { lastKey := some "k0", hasNext := true,
                submissions := some [acceptedEntry 10 "p0" 10] }
  else if n = 1 then
    Except.ok { lastKey := some "k1", hasNext := true,
                submissions := some [acceptedEntry 11 "p1" 30] }
  else
    Except.ok { lastKey := none, hasNext := false,
                submissions := some [acceptedEntry 12 "p2" 20] }

/-- The record produced by enriching an accepted submission via detailBySlug. -/
def solvedOn (slug : String) (ts subId : Int) : LeetCodeProblem :=
  { id := 0, title := slug, titleSlug := slug, difficulty := "Easy",
    timestamp := ts, topics := [], url := "", status := ProblemStatus.solved,
    language := "", submissionId := subId }

/-- A remote stream that keeps answering successful pages with hasNext = true
and an empty submissions array: none of the stopping conditions of the
pagination loop is ever reached on it. -/
def endlessEmptyPages : Nat → Except LeetCodeAPIError SubmissionPage :=
  fun _ => Except.ok { lastKey := none, hasNext := true, submissions := some [] }

/-- The pagination loop of fetchAllSubmissions never finishes on the
endlessEmptyPages stream, whatever the amount of fuel. -/
def fetchAllRunsForever : Prop :=
  ∀ fuel, fetchAllSubmissions apiWithToken [] emptyRecentList detailBySlug
    endlessEmptyPages fuel = FetchAllResult.fuelOut

/-- A loop state whose hasNext flag is already false. -/
def stoppedState : FetchAllState :=
  { initialFetchAllState with hasNext := false }

/-- The page-request count of a normally finished pagination-loop run
(none when the run threw or ran out of fuel). -/
def doneRequests : FetchAllLoopOutcome → Option Nat
  | FetchAllLoopOutcome.done s => some s.requests
  | FetchAllLoopOutcome.thrown _ => none
  | FetchAllLoopOutcome.fuelOut _ => none

/- ===================== helper lemmas ===================== -/

/-- Membership characterization of the updateProblemBase filter. -/
theorem mem_newProblemsOf {existingIds : List Int} {processed : List String}
    {problems : List LeetCodeProblem} {p : LeetCodeProblem} :
    p ∈ newProblemsOf existingIds processed problems ↔
      p ∈ problems ∧ p.id ∉ existingIds ∧ p.titleSlug ∉ processed := by
  simp [newProblemsOf, List.mem_filter, and_assoc]

/-- The descending-timestamp sort really is sorted. -/
theorem pairwise_insertionSort_byTimestampDesc (l : List LeetCodeProblem) :
    (List.insertionSort byTimestampDesc l).Pairwise
      (fun a b => b.timestamp ≤ a.timestamp) :=
  List.sorted_insertionSort byTimestampDesc l

/-- Shifting a mapped range by one. -/
theorem range_map_shift (f : Nat → Nat) (r a : Nat) :
    (List.range (r + 1)).map (fun i => f (a + i)) =
      f a :: (List.range r).map (fun i => f (a + 1 + i)) := by
  rw [List.range_succ_eq_map, List.map_cons, List.map_map]
  refine congrArg₂ _ (by simp) ?_
  apply List.map_congr_left
  intro i _
  exact congrArg f (by omega)

/-- Behaviour of the backoff loop when every attempt fails retryably: it
uses up the whole budget, sleeps the computed delay before each retry, and
ends with the aggregate error built from the error of the last attempt. -/
theorem expBackoffGo_all_fail {α : Type} (op : Nat → Except LeetCodeAPIError α)
    (jitter : Nat → Nat) (baseDelay maxRetries : Nat)
    (hop : ∀ n, ∃ e, op n = Except.error e ∧ e.retryable = true) :
    ∀ r attempt, ∃ e, op (attempt + r) = Except.error e ∧
      expBackoffGo op jitter baseDelay maxRetries r attempt =
        { result := Except.error (aggregateBackoffError maxRetries e),
          attempts := r + 1,
          delays := (List.range r).map
            (fun i => baseDelay * 2 ^ (attempt + i) + jitter (attempt + i)) } := by
  intro r
  induction r with
  | zero =>
    intro attempt
    obtain ⟨e, he, hr⟩ := hop attempt
    exact ⟨e, he, by simp [expBackoffGo, he, hr]⟩
  | succ r ih =>
    intro attempt
    obtain ⟨e, he, hr⟩ := hop attempt
    obtain ⟨e2, he2, hgo⟩ := ih (attempt + 1)
    refine ⟨e2, ?_, ?_⟩
    · have hsh : attempt + (r + 1) = attempt + 1 + r := by omega
      rw [hsh]
      exact he2
    · have hone : expBackoffGo op jitter baseDelay maxRetries (r + 1) attempt =
          { result := (expBackoffGo op jitter baseDelay maxRetries r (attempt + 1)).result,
            attempts := (expBackoffGo op jitter baseDelay maxRetries r (attempt + 1)).attempts + 1,
            delays := (baseDelay * 2 ^ attempt + jitter attempt) ::
              (expBackoffGo op jitter baseDelay maxRetries r (attempt + 1)).delays } := by
        rw [expBackoffGo, he]
        simp [hr]
      have hsh := range_map_shift (fun x => baseDelay * 2 ^ x + jitter x) r attempt
      rw [hone, hgo, hsh]

/-- Folding the fetchRecentSubmissions loop body over a batch whose every
detail fetch fails collects one failure description per submission and
nothing else. -/
theorem recent_foldl_all_fail (detail : String → Except LeetCodeAPIError ProblemDetails)
    (fp : Bool) (l : List RecentSubmission)
    (hl : ∀ sub ∈ l, ∃ e, detail sub.titleSlug = Except.error e) :
    ∀ ids fs, ∃ msgs : List String, msgs.length = l.length ∧
      l.foldl (recentStep detail fp)
        { problems := [], seenTitleSlugs := [], processedIds := ids,
          failedProblems := fs } =
        { problems := [], seenTitleSlugs := [], processedIds := ids,
          failedProblems := fs ++ msgs } := by
  induction l with
  | nil =>
    intro ids fs
    exact ⟨[], rfl, by simp⟩
  | cons sub rest ih =>
    intro ids fs
    obtain ⟨e, he⟩ := hl sub (by simp)
    obtain ⟨msgs, hlen, hfold⟩ := ih (fun s hs => hl s (by simp [hs])) ids
      (fs ++ [sub.titleSlug ++ ": " ++ e.message])
    refine ⟨(sub.titleSlug ++ ": " ++ e.message) :: msgs, by simp [hlen], ?_⟩
    rw [List.foldl_cons]
    have hstep : recentStep detail fp
        { problems := [], seenTitleSlugs := [], processedIds := ids,
          failedProblems := fs } sub =
        { problems := [], seenTitleSlugs := [], processedIds := ids,
          failedProblems := fs ++ [sub.titleSlug ++ ": " ++ e.message] } := by
      simp [recentStep, he]
    rw [hstep, hfold, List.append_assoc]
    rfl

/-- On the endlessEmptyPages stream the pagination loop always runs out of
fuel from any state that satisfies the loop condition. -/
theorem fetchAllLoop_endless (detail : String → Except LeetCodeAPIError ProblemDetails) :
    ∀ (n : Nat) (s : FetchAllState), s.hasNext = true →
      s.consecutiveFailures < maxConsecutiveFailures →
      s.acc.totalProcessed < maxProblems →
      ∃ s2, fetchAllLoop endlessEmptyPages detail n s =
        FetchAllLoopOutcome.fuelOut s2 := by
  intro n
  induction n with
  | zero =>
    intro s _ _ _
    exact ⟨s, rfl⟩
  | succ n ih =>
    intro s h1 h2 h3
    have hc : (s.hasNext && decide (s.consecutiveFailures < maxConsecutiveFailures)
        && decide (s.acc.totalProcessed < maxProblems)) = true := by
      simp [h1, h2, h3]
    have hstep : fetchAllLoop endlessEmptyPages detail (n + 1) s =
        fetchAllLoop endlessEmptyPages detail n
          { acc := s.acc, offset := s.offset + ((0 : Nat) : Int),
            hasNext := true, lastKey := none, consecutiveFailures := 0,
            requests := s.requests + 1 } := by
      simp [fetchAllLoop, hc, endlessEmptyPages]
    rw [hstep]
    exact ih _ rfl (by simp [maxConsecutiveFailures]) h3

/-- Closed form of updateProblemBase in bases format with succeeding
materialization: the filter result is returned and, when it is non-empty,
its slugs are marked processed and persisted. -/
theorem updateProblemBase_bases_ok (files : List NoteCache) (st : WriterStore)
    (problems : List LeetCodeProblem) :
    updateProblemBase true true files st problems =
      Except.ok
        (newProblemsOf (getExistingProblemIds files) st.processedProblems problems,
          if (newProblemsOf (getExistingProblemIds files) st.processedProblems
              problems).isEmpty then st
          else
            { processedProblems := st.processedProblems ++
                (newProblemsOf (getExistingProblemIds files) st.processedProblems
                  problems).map (fun p => p.titleSlug),
              persisted := st.processedProblems ++
                (newProblemsOf (getExistingProblemIds files) st.processedProblems
                  problems).map (fun p => p.titleSlug) }) := by
  by_cases h : (newProblemsOf (getExistingProblemIds files) st.processedProblems
      problems).isEmpty
  · simp [updateProblemBase, h, List.isEmpty_iff.mp h]
  · simp [updateProblemBase, h]

/-- The delays of the backoff schedule are strictly increasing when the base
delay dominates the jitter bound. -/
theorem pairwise_delays (baseDelay : Nat) (jitter : Nat → Nat)
    (hbase : 1000 ≤ baseDelay) (hjit : ∀ n, jitter n < 1000) (r : Nat) :
    ((List.range r).map (fun a => baseDelay * 2 ^ a + jitter a)).Pairwise (· < ·) := by
  have hstep : ∀ a : Nat,
      baseDelay * 2 ^ a + jitter a < baseDelay * 2 ^ (a + 1) + jitter (a + 1) := by
    intro a
    have h2 : (1 : Nat) ≤ 2 ^ a := Nat.one_le_two_pow
    have hb : 1000 ≤ baseDelay * 2 ^ a :=
      le_trans hbase (le_mul_of_one_le_right (Nat.zero_le _) h2)
    have hpow : baseDelay * 2 ^ (a + 1) = baseDelay * 2 ^ a + baseDelay * 2 ^ a := by
      ring
    have hj := hjit a
    omega
  exact List.Pairwise.map _
    (fun a b hab => strictMono_nat_of_lt_succ hstep hab)
    (List.pairwise_lt_range r)

/-- Every successfully returned fetchRecentSubmissions list is sorted by
descending timestamp. -/
theorem fetchRecentSubmissions_sorted (api : APISettings) (ids : List Int)
    (ro : Int → Except LeetCodeAPIError (Option (List RecentSubmission)))
    (detail : String → Except LeetCodeAPIError ProblemDetails)
    (fp : Bool) (limit : Option Int) (l : List LeetCodeProblem) (ids2 : List Int)
    (h : fetchRecentSubmissions api ids ro detail fp limit = Except.ok (l, ids2)) :
    l.Pairwise (fun a b => b.timestamp ≤ a.timestamp) := by
  simp only [fetchRecentSubmissions] at h
  split at h
  · exact absurd h (by simp)
  · split at h
    · exact absurd h (by simp)
    · obtain ⟨h1, h2⟩ := by simpa only [Except.ok.injEq, Prod.mk.injEq] using h
      rw [← h1]
      exact List.Pairwise.nil
    · split at h
      · exact absurd h (by simp)
      · obtain ⟨h1, h2⟩ := by simpa only [Except.ok.injEq, Prod.mk.injEq] using h
        rw [← h1]
        exact pairwise_insertionSort_byTimestampDesc _

/-- Every normally returned fetchAllSubmissions list is sorted by descending
timestamp. -/
theorem fetchAllSubmissions_sorted (api : APISettings) (ids : List Int)
    (ro : Int → Except LeetCodeAPIError (Option (List RecentSubmission)))
    (detail : String → Except LeetCodeAPIError ProblemDetails)
    (po : Nat → Except LeetCodeAPIError SubmissionPage) (fuel : Nat)
    (l : List LeetCodeProblem) (ids2 : List Int)
    (h : fetchAllSubmissions api ids ro detail po fuel =
      FetchAllResult.done l ids2) :
    l.Pairwise (fun a b => b.timestamp ≤ a.timestamp) := by
  simp only [fetchAllSubmissions] at h
  split at h
  · cases hfr : fetchRecentSubmissions api ids ro detail false (some 100) with
    | ok pair =>
      rw [hfr] at h
      obtain ⟨l2, i2⟩ := pair
      simp only [exceptToResult, FetchAllResult.done.injEq] at h
      obtain ⟨h1, h2⟩ := h
      rw [← h1]
      exact fetchRecentSubmissions_sorted api ids ro detail false (some 100) l2 i2 hfr
    | error e =>
      rw [hfr] at h
      exact absurd h (by simp [exceptToResult])
  · split at h
    · obtain ⟨h1, h2⟩ := by
        simpa only [FetchAllResult.done.injEq] using h
      rw [← h1]
      exact pairwise_insertionSort_byTimestampDesc _
    · exact absurd h (by simp)
    · exact absurd h (by simp)

/- ===================== claims ===================== -/

/-- C1: for every batch passed to updateProblemBase (the reconcile
operation, run in bases format with succeeding materialization), the
returned new subset consists exactly of the records whose numeric id is
absent from the freshly queried existing-ids snapshot and whose slug is
absent from the persisted processedProblems set; in particular, with the
store already containing id 1 and an empty processed set, reconciling the
batch of the two-sum (id 1) and three-sum (id 2) records returns only the
id 2 record. -/
theorem C1_reconcile_new_subset :
    (∀ (files : List NoteCache) (st : WriterStore)
        (problems l : List LeetCodeProblem) (st2 : WriterStore),
      updateProblemBase true true files st problems = Except.ok (l, st2) →
      ∀ p, p ∈ l ↔ p ∈ problems ∧ p.id ∉ getExistingProblemIds files ∧
        p.titleSlug ∉ st.processedProblems) ∧
    updateProblemBase true true [{ problem_id := some 1 }]
        { processedProblems := [], persisted := [] } [twoSumRecord, threeSumRecord] =
      Except.ok ([threeSumRecord],
        { processedProblems := ["three-sum"], persisted := ["three-sum"] }) := by
  constructor
  · intro files st problems l st2 h
    rw [updateProblemBase_bases_ok] at h
    obtain ⟨h1, h2⟩ := by simpa only [Except.ok.injEq, Prod.mk.injEq] using h
    intro p
    rw [← h1]
    exact mem_newProblemsOf
  · rfl

/-- Witness for C1: the characterization applied to the concrete scenario,
specialized to the three-sum record. -/
theorem C1_reconcile_new_subset_witness :
    threeSumRecord ∈ ([threeSumRecord] : List LeetCodeProblem) ↔
      threeSumRecord ∈ [twoSumRecord, threeSumRecord] ∧
        threeSumRecord.id ∉ getExistingProblemIds [{ problem_id := some 1 }] ∧
        threeSumRecord.titleSlug ∉ ([] : List String) :=
  C1_reconcile_new_subset.1 [{ problem_id := some 1 }]
    { processedProblems := [], persisted := [] } [twoSumRecord, threeSumRecord]
    [threeSumRecord] { processedProblems := ["three-sum"], persisted := ["three-sum"] }
    C1_reconcile_new_subset.2 threeSumRecord

/-- C2: reconciling the same batch twice in bases format with succeeding
materialization and no loss of existing store ids in between yields the
non-empty new subset on the first call (when the batch contains a genuinely
new record) and the empty subset on the second call. -/
theorem C2_reconcile_idempotent (files files2 : List NoteCache) (st : WriterStore)
    (batch : List LeetCodeProblem)
    (hmono : ∀ i, i ∈ getExistingProblemIds files → i ∈ getExistingProblemIds files2)
    (hnew : ∃ p ∈ batch, p.id ∉ getExistingProblemIds files ∧
      p.titleSlug ∉ st.processedProblems) :
    updateProblemBase true true files st batch =
      Except.ok
        (newProblemsOf (getExistingProblemIds files) st.processedProblems batch,
          { processedProblems := st.processedProblems ++
              (newProblemsOf (getExistingProblemIds files) st.processedProblems
                batch).map (fun p => p.titleSlug),
            persisted := st.processedProblems ++
              (newProblemsOf (getExistingProblemIds files) st.processedProblems
                batch).map (fun p => p.titleSlug) }) ∧
    newProblemsOf (getExistingProblemIds files) st.processedProblems batch ≠ [] ∧
    updateProblemBase true true files2
        { processedProblems := st.processedProblems ++
            (newProblemsOf (getExistingProblemIds files) st.processedProblems
              batch).map (fun p => p.titleSlug),
          persisted := st.processedProblems ++
            (newProblemsOf (getExistingProblemIds files) st.processedProblems
              batch).map (fun p => p.titleSlug) } batch =
      Except.ok ([],
        { processedProblems := st.processedProblems ++
            (newProblemsOf (getExistingProblemIds files) st.processedProblems
              batch).map (fun p => p.titleSlug),
          persisted := st.processedProblems ++
            (newProblemsOf (getExistingProblemIds files) st.processedProblems
              batch).map (fun p => p.titleSlug) }) := by
  obtain ⟨p, hp, hid, hslug⟩ := hnew
  have hpN : p ∈ newProblemsOf (getExistingProblemIds files) st.processedProblems batch :=
    mem_newProblemsOf.mpr ⟨hp, hid, hslug⟩
  have hNne : newProblemsOf (getExistingProblemIds files) st.processedProblems batch ≠ [] := by
    intro hnil
    rw [hnil] at hpN
    exact absurd hpN (List.not_mem_nil p)
  have hNemp :
      (newProblemsOf (getExistingProblemIds files) st.processedProblems batch).isEmpty
        = false := by
    cases hh : newProblemsOf (getExistingProblemIds files) st.processedProblems batch with
    | nil => exact absurd hh hNne
    | cons a t => rfl
  have h2nil : newProblemsOf (getExistingProblemIds files2)
      (st.processedProblems ++
        (newProblemsOf (getExistingProblemIds files) st.processedProblems batch).map
          (fun p => p.titleSlug)) batch = [] := by
    rw [List.eq_nil_iff_forall_not_mem]
    intro q hq
    rw [mem_newProblemsOf] at hq
    obtain ⟨hqb, hqid2, hqslug2⟩ := hq
    have hqid : q.id ∉ getExistingProblemIds files := fun hin => hqid2 (hmono q.id hin)
    have hqslug : q.titleSlug ∉ st.processedProblems := fun hin =>
      hqslug2 (List.mem_append.mpr (Or.inl hin))
    have hqN : q ∈ newProblemsOf (getExistingProblemIds files) st.processedProblems batch :=
      mem_newProblemsOf.mpr ⟨hqb, hqid, hqslug⟩
    exact hqslug2 (List.mem_append.mpr (Or.inr
      (List.mem_map_of_mem (fun p => p.titleSlug) hqN)))
  refine ⟨?_, hNne, ?_⟩
  · rw [updateProblemBase_bases_ok, hNemp]
    rfl
  · rw [updateProblemBase_bases_ok, h2nil]
    rfl

/-- Witness for C2 at the concrete scenario: store contains id 1, processed
set empty, batch of the two records. -/
theorem C2_reconcile_idempotent_witness :
    updateProblemBase true true [{ problem_id := some 1 }]
        { processedProblems := [], persisted := [] } [twoSumRecord, threeSumRecord] =
      Except.ok ([threeSumRecord],
        { processedProblems := ["three-sum"], persisted := ["three-sum"] }) ∧
    ([threeSumRecord] : List LeetCodeProblem) ≠ [] ∧
    updateProblemBase true true [{ problem_id := some 1 }]
        { processedProblems := ["three-sum"], persisted := ["three-sum"] }
        [twoSumRecord, threeSumRecord] =
      Except.ok ([],
        { processedProblems := ["three-sum"], persisted := ["three-sum"] }) :=
  C2_reconcile_idempotent [{ problem_id := some 1 }] [{ problem_id := some 1 }]
    { processedProblems := [], persisted := [] } [twoSumRecord, threeSumRecord]
    (fun _ h => h)
    ⟨threeSumRecord, by decide, by decide, by decide⟩

/-- C9 (amended): during sync updateProblemBase only ever adds slugs to
processedProblems and persists the set whenever it mutates it, and the
explicit clear action empties the set; the startup load additionally clears
the set (in memory and persisted) when the individual-notes folder does not
exist, and otherwise leaves the persisted set untouched. -/
theorem C9_processed_set_growth :
    (∀ (u m : Bool) (files : List NoteCache) (st : WriterStore)
        (problems l : List LeetCodeProblem) (st2 : WriterStore),
      updateProblemBase u m files st problems = Except.ok (l, st2) →
      (∀ s ∈ st.processedProblems, s ∈ st2.processedProblems) ∧
      (st2 = st ∨ st2.persisted = st2.processedProblems)) ∧
    (∀ d, (loadProcessedProblems true d).persisted = d.getD []) ∧
    (∀ d, loadProcessedProblems false d =
      { processedProblems := [], persisted := [] }) ∧
    (∀ st, clearProcessedProblems st =
      { processedProblems := [], persisted := [] }) := by
  refine ⟨?_, ?_, ?_, ?_⟩
  · intro u m files st problems l st2 h
    simp only [updateProblemBase] at h
    split at h
    · obtain ⟨h1, h2⟩ := by simpa only [Except.ok.injEq, Prod.mk.injEq] using h
      exact ⟨fun s hs => h2 ▸ hs, Or.inl h2.symm⟩
    · split at h
      · split at h
        · obtain ⟨h1, h2⟩ := by simpa only [Except.ok.injEq, Prod.mk.injEq] using h
          refine ⟨fun s hs => ?_, Or.inr ?_⟩
          · rw [← h2]
            exact List.mem_append.mpr (Or.inl hs)
          · rw [← h2]
        · exact absurd h (by simp)
      · obtain ⟨h1, h2⟩ := by simpa only [Except.ok.injEq, Prod.mk.injEq] using h
        exact ⟨fun s hs => h2 ▸ hs, Or.inl h2.symm⟩
  · intro d
    cases d <;> rfl
  · intro d
    cases d <;> rfl
  · intro st
    rfl

/-- Witness for C9 at concrete inputs: a sync adding the two-sum slug to a
set holding x, a load with an existing folder, a load with a missing
folder, and a clear. -/
theorem C9_processed_set_growth_witness :
    "x" ∈ (["x", "two-sum"] : List String) ∧
    (({ processedProblems := ["x", "two-sum"], persisted := ["x", "two-sum"] } :
        WriterStore) = { processedProblems := ["x"], persisted := ["x"] } ∨
      (["x", "two-sum"] : List String) = ["x", "two-sum"]) ∧
    (loadProcessedProblems true (some ["a"])).persisted = ["a"] ∧
    loadProcessedProblems false (some ["a"]) =
      { processedProblems := [], persisted := [] } ∧
    clearProcessedProblems { processedProblems := ["a"], persisted := ["a"] } =
      { processedProblems := [], persisted := [] } :=
  ⟨(C9_processed_set_growth.1 true true []
      { processedProblems := ["x"], persisted := ["x"] } [twoSumRecord]
      [twoSumRecord]
      { processedProblems := ["x", "two-sum"], persisted := ["x", "two-sum"] }
      rfl).1 "x" (by decide),
    (C9_processed_set_growth.1 true true []
      { processedProblems := ["x"], persisted := ["x"] } [twoSumRecord]
      [twoSumRecord]
      { processedProblems := ["x", "two-sum"], persisted := ["x", "two-sum"] }
      rfl).2,
    C9_processed_set_growth.2.1 (some ["a"]),
    C9_processed_set_growth.2.2.1 (some ["a"]),
    C9_processed_set_growth.2.2.2 { processedProblems := ["a"], persisted := ["a"] }⟩

/-- C9 counterexample: when the individual-notes folder is missing, the
startup load - an operation distinct from the explicit clear action -
removes the slug two-sum from the persisted processedProblems set by
persisting the cleared set. -/
theorem C9_processed_set_growth_counterexample :
    "two-sum" ∈ (["two-sum"] : List String) ∧
    loadProcessedProblems false (some ["two-sum"]) =
      { processedProblems := [], persisted := [] } :=
  ⟨by decide, rfl⟩

/-- C3: a retried operation that fails with a retryable error on every
attempt is attempted exactly maxRetries + 1 times, the delays slept between
consecutive attempts are strictly increasing (for the source base delay of
1000 or more, which dominates the jitter bound of 1000), and the run ends
by raising the aggregate error naming the error of the last attempt. -/
theorem C3_retry_budget {α : Type} (op : Nat → Except LeetCodeAPIError α)
    (jitter : Nat → Nat) (maxRetries baseDelay : Nat)
    (hop : ∀ n, ∃ e, op n = Except.error e ∧ e.retryable = true)
    (hbase : 1000 ≤ baseDelay) (hjit : ∀ n, jitter n < 1000) :
    (exponentialBackoff op jitter maxRetries baseDelay).attempts = maxRetries + 1 ∧
    (exponentialBackoff op jitter maxRetries baseDelay).delays.Pairwise (· < ·) ∧
    ∀ e, op maxRetries = Except.error e →
      (exponentialBackoff op jitter maxRetries baseDelay).result =
        Except.error (aggregateBackoffError maxRetries e) := by
  obtain ⟨e0, he0, hgo⟩ :=
    expBackoffGo_all_fail op jitter baseDelay maxRetries hop maxRetries 0
  rw [Nat.zero_add] at he0
  refine ⟨?_, ?_, ?_⟩
  · rw [exponentialBackoff, hgo]
  · rw [exponentialBackoff, hgo]
    show ((List.range maxRetries).map
      (fun i => baseDelay * 2 ^ (0 + i) + jitter (0 + i))).Pairwise (· < ·)
    have hfun : (fun i => baseDelay * 2 ^ (0 + i) + jitter (0 + i)) =
        (fun a => baseDelay * 2 ^ a + jitter a) := by
      funext i
      rw [Nat.zero_add]
    rw [hfun]
    exact pairwise_delays baseDelay jitter hbase hjit maxRetries
  · intro e he
    rw [he0] at he
    injection he with hh
    rw [← hh, exponentialBackoff, hgo]

/-- Witness for C3: three attempts, strictly increasing delays and the
aggregate error, for a concretely always-failing operation with retry
budget 2 and base delay 1000. -/
theorem C3_retry_budget_witness :
    (exponentialBackoff alwaysFailOp (fun _ => 0) 2 1000).attempts = 2 + 1 ∧
    (exponentialBackoff alwaysFailOp (fun _ => 0) 2 1000).delays.Pairwise (· < ·) ∧
    (exponentialBackoff alwaysFailOp (fun _ => 0) 2 1000).result =
      Except.error (aggregateBackoffError 2 networkRetryError) :=
  ⟨(C3_retry_budget alwaysFailOp (fun _ => 0) 2 1000
      (fun _ => ⟨networkRetryError, rfl, rfl⟩) (le_refl 1000) (fun _ => by norm_num)).1,
    (C3_retry_budget alwaysFailOp (fun _ => 0) 2 1000
      (fun _ => ⟨networkRetryError, rfl, rfl⟩) (le_refl 1000) (fun _ => by norm_num)).2.1,
    (C3_retry_budget alwaysFailOp (fun _ => 0) 2 1000
      (fun _ => ⟨networkRetryError, rfl, rfl⟩) (le_refl 1000)
      (fun _ => by norm_num)).2.2 networkRetryError rfl⟩

/-- C4 (amended): if every detail fetch of the batch fails,
fetchRecentSubmissions raises the single aggregate retryable no-data error
built from the collected failure descriptions; and whenever at least one
successfully fetched record survives the in-call duplicate and
already-processed filtering (the collected list is non-empty), the call
returns that collected subset sorted by descending timestamp without
raising. -/
theorem C4_partial_batch_survival (api : APISettings) (ids : List Int)
    (ro : Int → Except LeetCodeAPIError (Option (List RecentSubmission)))
    (detail : String → Except LeetCodeAPIError ProblemDetails)
    (fp : Bool) (limit : Option Int) (list : List RecentSubmission)
    (huser : (jsTrim api.username == "") = false)
    (hro : ro (submissionLimitOf limit api.recentSubmissionsLimit) =
      Except.ok (some list)) :
    ((∀ sub ∈ list, ∃ e, detail sub.titleSlug = Except.error e) → list ≠ [] →
      fetchRecentSubmissions api ids ro detail fp limit =
        Except.error (noDataError
          (list.foldl (recentStep detail fp)
            { problems := [], seenTitleSlugs := [], processedIds := ids,
              failedProblems := [] }).failedProblems) ∧
      (noDataError
          (list.foldl (recentStep detail fp)
            { problems := [], seenTitleSlugs := [], processedIds := ids,
              failedProblems := [] }).failedProblems).retryable = true) ∧
    ((list.foldl (recentStep detail fp)
        { problems := [], seenTitleSlugs := [], processedIds := ids,
          failedProblems := [] }).problems ≠ [] →
      fetchRecentSubmissions api ids ro detail fp limit =
        Except.ok (List.insertionSort byTimestampDesc
          (list.foldl (recentStep detail fp)
            { problems := [], seenTitleSlugs := [], processedIds := ids,
              failedProblems := [] }).problems,
          (list.foldl (recentStep detail fp)
            { problems := [], seenTitleSlugs := [], processedIds := ids,
              failedProblems := [] }).processedIds)) := by
  constructor
  · intro hall hne
    obtain ⟨msgs, hlen, hfold⟩ := recent_foldl_all_fail detail fp list hall ids []
    have hmne : msgs ≠ [] := by
      intro hm
      rw [hm] at hlen
      exact hne (List.length_eq_zero.mp hlen.symm)
    have hmemp : msgs.isEmpty = false := by
      cases msgs with
      | nil => exact absurd rfl hmne
      | cons a t => rfl
    rw [hfold]
    refine ⟨?_, rfl⟩
    simp only [fetchRecentSubmissions, huser, hro, hfold]
    simp [hmemp]
  · intro hne
    have hpemp : (list.foldl (recentStep detail fp)
        { problems := [], seenTitleSlugs := [], processedIds := ids,
          failedProblems := [] }).problems.isEmpty = false := by
      cases hh : (list.foldl (recentStep detail fp)
          { problems := [], seenTitleSlugs := [], processedIds := ids,
            failedProblems := [] }).problems with
      | nil => exact absurd hh hne
      | cons a t => rfl
    simp only [fetchRecentSubmissions, huser, hro]
    simp [hpemp]

/-- Witness for C4: with both detail fetches failing the call raises the
retryable aggregate error; with succeeding detail fetches the surviving
record is returned. -/
theorem C4_partial_batch_survival_witness :
    (fetchRecentSubmissions apiNoToken [] recentListAB alwaysFailDetail true none =
        Except.error (noDataError ["a: boom", "b: boom"]) ∧
      (noDataError ["a: boom", "b: boom"]).retryable = true) ∧
    fetchRecentSubmissions apiNoToken [] recentListAB detailBySlug true none =
      Except.ok ([solvedOn "a" 5 10], [0]) :=
  ⟨(C4_partial_batch_survival apiNoToken [] recentListAB alwaysFailDetail true none
      recentSubsAB rfl rfl).1 (fun _ _ => ⟨networkRetryError, rfl⟩) (by decide),
    (C4_partial_batch_survival apiNoToken [] recentListAB detailBySlug true none
      recentSubsAB rfl rfl).2 (by decide)⟩

/-- C4 counterexample: the detail fetch for slug a succeeds, yet
fetchRecentSubmissions raises, because the only successfully fetched record
is filtered out as already processed (its id 1 is in the in-memory seen
set) while the fetch for slug b failed - so at least one detail fetch
succeeding does not prevent the raise. -/
theorem C4_partial_batch_survival_counterexample :
    detailAB "a" = Except.ok problemDetailsA ∧
    fetchRecentSubmissions apiNoToken [1] recentListAB detailAB true none =
      Except.error (noDataError ["b: boom"]) :=
  ⟨rfl, rfl⟩

/-- C5: when no session token is configured fetchAllSubmissions does not
raise for that reason but returns exactly the result of
fetchRecentSubmissions called with filterProcessed = false and limit = 100. -/
theorem C5_no_token_fallback (api : APISettings) (ids : List Int)
    (ro : Int → Except LeetCodeAPIError (Option (List RecentSubmission)))
    (detail : String → Except LeetCodeAPIError ProblemDetails)
    (po : Nat → Except LeetCodeAPIError SubmissionPage) (fuel : Nat)
    (h : isBlank api.sessionToken = true) :
    fetchAllSubmissions api ids ro detail po fuel =
      exceptToResult (fetchRecentSubmissions api ids ro detail false (some 100)) := by
  simp [fetchAllSubmissions, h]

/-- Witness for C5 at concrete oracles with no session token configured. -/
theorem C5_no_token_fallback_witness :
    fetchAllSubmissions apiNoToken [] emptyRecentList detailBySlug failPageOracle 3 =
      exceptToResult
        (fetchRecentSubmissions apiNoToken [] emptyRecentList detailBySlug false
          (some 100)) :=
  C5_no_token_fallback apiNoToken [] emptyRecentList detailBySlug failPageOracle 3 rfl

/-- C6: every list returned by fetchRecentSubmissions and every list
normally returned by fetchAllSubmissions is sorted by descending solved
timestamp: at earlier positions the timestamp is at least the one at later
positions. -/
theorem C6_sorted_descending :
    (∀ api ids ro detail fp limit l ids2,
      fetchRecentSubmissions api ids ro detail fp limit = Except.ok (l, ids2) →
      l.Pairwise (fun a b => b.timestamp ≤ a.timestamp)) ∧
    (∀ api ids ro detail po fuel l ids2,
      fetchAllSubmissions api ids ro detail po fuel = FetchAllResult.done l ids2 →
      l.Pairwise (fun a b => b.timestamp ≤ a.timestamp)) :=
  ⟨fetchRecentSubmissions_sorted, fetchAllSubmissions_sorted⟩

/-- Witness for C6 at concrete oracles: a one-record recent fetch and an
empty fallback full fetch. -/
theorem C6_sorted_descending_witness :
    List.Pairwise (fun a b : LeetCodeProblem => b.timestamp ≤ a.timestamp)
      [solvedOn "a" 5 10] ∧
    List.Pairwise (fun a b : LeetCodeProblem => b.timestamp ≤ a.timestamp)
      ([] : List LeetCodeProblem) :=
  ⟨C6_sorted_descending.1 apiNoToken [] recentListAB detailBySlug true none
      [solvedOn "a" 5 10] [0] rfl,
    C6_sorted_descending.2 apiNoToken [] emptyRecentList detailBySlug failPageOracle
      0 [] [] rfl⟩

/-- C7 (amended): the pagination loop stops immediately once its condition
fails (hasNext false, 3 consecutive page failures, or the 3500-problem
ceiling); it does not terminate on every response stream (see the
counterexample for an endless stream on which no stopping condition is ever
reached), but against a source reporting hasNext = false on its third page
it issues exactly 3 page requests and returns the union of the accepted
submissions sorted by descending timestamp. -/
theorem C7_pagination_termination
    (po : Nat → Except LeetCodeAPIError SubmissionPage)
    (detail : String → Except LeetCodeAPIError ProblemDetails)
    (n : Nat) (s : FetchAllState)
    (hstop : (s.hasNext && decide (s.consecutiveFailures < maxConsecutiveFailures)
      && decide (s.acc.totalProcessed < maxProblems)) = false) :
    fetchAllLoop po detail (n + 1) s = FetchAllLoopOutcome.done s ∧
    doneRequests (fetchAllLoop threePageOracle detailBySlug 10 initialFetchAllState) =
      some 3 ∧
    fetchAllSubmissions apiWithToken [] emptyRecentList detailBySlug threePageOracle
        10 =
      FetchAllResult.done
        [solvedOn "p1" 30 11, solvedOn "p2" 20 12, solvedOn "p0" 10 10] [] := by
  refine ⟨?_, rfl, rfl⟩
  simp [fetchAllLoop, hstop]

/-- Witness for C7 at a loop state whose hasNext flag is already false. -/
theorem C7_pagination_termination_witness :
    fetchAllLoop failPageOracle detailBySlug (0 + 1) stoppedState =
      FetchAllLoopOutcome.done stoppedState ∧
    doneRequests (fetchAllLoop threePageOracle detailBySlug 10 initialFetchAllState) =
      some 3 ∧
    fetchAllSubmissions apiWithToken [] emptyRecentList detailBySlug threePageOracle
        10 =
      FetchAllResult.done
        [solvedOn "p1" 30 11, solvedOn "p2" 20 12, solvedOn "p0" 10 10] [] :=
  C7_pagination_termination failPageOracle detailBySlug 0 stoppedState rfl

/-- C7 counterexample: on the endlessEmptyPages stream of successful pages
that always report hasNext = true and never contribute a processed problem,
no stopping condition is ever reached and the pagination loop runs out of
every amount of fuel: it does not terminate on that stream. -/
theorem C7_pagination_termination_counterexample : fetchAllRunsForever := by
  intro fuel
  obtain ⟨s2, hs⟩ := fetchAllLoop_endless detailBySlug fuel initialFetchAllState rfl
    (by decide) (by decide)
  simp [fetchAllSubmissions, show isBlank apiWithToken.sessionToken = false from rfl,
    hs]

/-- C8 (amended): out-of-range limits passed to fetchRecentSubmissions are
not rejected: the effective request limit always lands in 1..100; values
below 1 become 1 except 0, which — like an omitted limit, 0 being falsy —
is replaced by the configured recentSubmissionsLimit and then clamped;
values above 100 become 100; and the call behaves exactly as if made with
the clamped in-range limit. -/
theorem C8_limit_clamped (c v : Int) :
    (1 ≤ submissionLimitOf (some v) c ∧ submissionLimitOf (some v) c ≤ 100) ∧
    (v < 1 → v ≠ 0 → submissionLimitOf (some v) c = 1) ∧
    (100 < v → submissionLimitOf (some v) c = 100) ∧
    submissionLimitOf (some 0) c = submissionLimitOf none c ∧
    (∀ (api : APISettings) (ids : List Int)
        (ro : Int → Except LeetCodeAPIError (Option (List RecentSubmission)))
        (detail : String → Except LeetCodeAPIError ProblemDetails) (fp : Bool),
      fetchRecentSubmissions api ids ro detail fp (some v) =
        fetchRecentSubmissions api ids ro detail fp
          (some (submissionLimitOf (some v) api.recentSubmissionsLimit))) := by
  have key : ∀ d w : Int, 1 ≤ w → w ≤ 100 → submissionLimitOf (some w) d = w := by
    intro d w h1 h2
    simp only [submissionLimitOf, jsOrDefault, if_neg (show ¬ w = 0 by omega)]
    omega
  have hclamp : ∀ d u : Int,
      1 ≤ submissionLimitOf (some u) d ∧ submissionLimitOf (some u) d ≤ 100 := by
    intro d u
    rcases eq_or_ne u 0 with rfl | hu
    · show 1 ≤ max 1 (min d 100) ∧ max 1 (min d 100) ≤ 100
      omega
    · simp only [submissionLimitOf, jsOrDefault, if_neg hu]
      omega
  refine ⟨hclamp c v, ?_, ?_, rfl, ?_⟩
  · intro hv1 hv0
    simp only [submissionLimitOf, jsOrDefault, if_neg hv0]
    omega
  · intro hv
    simp only [submissionLimitOf, jsOrDefault, if_neg (show ¬ v = 0 by omega)]
    omega
  · intro api ids ro detail fp
    simp only [fetchRecentSubmissions]
    rw [key api.recentSubmissionsLimit
      (submissionLimitOf (some v) api.recentSubmissionsLimit)
      (hclamp api.recentSubmissionsLimit v).1 (hclamp api.recentSubmissionsLimit v).2]

/-- Witness for C8 at the concrete out-of-range limits -5 and 101. -/
theorem C8_limit_clamped_witness :
    submissionLimitOf (some (-5 : Int)) 20 = 1 ∧
    submissionLimitOf (some (101 : Int)) 20 = 100 :=
  ⟨(C8_limit_clamped 20 (-5)).2.1 (by norm_num) (by norm_num),
    (C8_limit_clamped 20 101).2.2.1 (by norm_num)⟩

/-- C8 counterexample: 0 lies below 1, but the effective limit for limit 0
with configured recentSubmissionsLimit 20 is 20, not 1, because 0 is falsy
and falls back to the configured default before clamping. -/
theorem C8_limit_clamped_counterexample :
    (0 : Int) < 1 ∧ submissionLimitOf (some 0) 20 = 20 ∧
      submissionLimitOf (some 0) 20 ≠ 1 :=
  ⟨by norm_num, rfl, by decide⟩

/-- C10: for every submissionId greater than 0, fetchSubmissionDetails
never raises to its caller: without a session token, on a remote answer
without a matching submission, and on any failing request it returns
undefined; conversely a raise implies that the given submissionId was not
greater than 0. -/
theorem C10_submission_details_no_raise (api : APISettings)
    (oracle : Except LeetCodeAPIError (Option RawSubmissionDetail)) (sid : Int)
    (hpos : 0 < sid) :
    (fetchSubmissionDetails api oracle sid).isOk = true ∧
    (isBlank api.sessionToken = true →
      fetchSubmissionDetails api oracle sid = Except.ok none) ∧
    (∀ e, oracle = Except.error e →
      fetchSubmissionDetails api oracle sid = Except.ok none) ∧
    (oracle = Except.ok none →
      fetchSubmissionDetails api oracle sid = Except.ok none) ∧
    (∀ (api2 : APISettings)
        (oracle2 : Except LeetCodeAPIError (Option RawSubmissionDetail))
        (sid2 : Int) (e2 : LeetCodeAPIError),
      fetchSubmissionDetails api2 oracle2 sid2 = Except.error e2 → sid2 ≤ 0) := by
  have hneg : ¬ sid ≤ 0 := by omega
  refine ⟨?_, ?_, ?_, ?_, ?_⟩
  · by_cases hb : isBlank api.sessionToken = true
    · simp [fetchSubmissionDetails, hb, Except.isOk, Except.toBool]
    · cases oracle with
      | ok o =>
        cases o with
        | none => simp [fetchSubmissionDetails, hb, hneg, Except.isOk, Except.toBool]
        | some r => simp [fetchSubmissionDetails, hb, hneg, Except.isOk, Except.toBool]
      | error e => simp [fetchSubmissionDetails, hb, hneg, Except.isOk, Except.toBool]
  · intro hb
    simp [fetchSubmissionDetails, hb]
  · intro e he
    subst he
    by_cases hb : isBlank api.sessionToken = true
    · simp [fetchSubmissionDetails, hb]
    · simp [fetchSubmissionDetails, hb, hneg]
  · intro ho
    subst ho
    by_cases hb : isBlank api.sessionToken = true
    · simp [fetchSubmissionDetails, hb]
    · simp [fetchSubmissionDetails, hb, hneg]
  · intro api2 oracle2 sid2 e2 h
    by_contra hgt
    have hne2 : ¬ sid2 ≤ 0 := hgt
    by_cases hb : isBlank api2.sessionToken = true
    · simp [fetchSubmissionDetails, hb] at h
    · cases oracle2 with
      | ok o =>
        cases o with
        | none => simp [fetchSubmissionDetails, hb, hne2] at h
        | some r => simp [fetchSubmissionDetails, hb, hne2] at h
      | error e => simp [fetchSubmissionDetails, hb, hne2] at h

/-- Witness for C10 at a concrete in-range submission id with no session
token. -/
theorem C10_submission_details_no_raise_witness :
    (fetchSubmissionDetails apiNoToken (Except.ok none) 5).isOk = true ∧
    fetchSubmissionDetails apiNoToken (Except.ok none) 5 = Except.ok none :=
  ⟨(C10_submission_details_no_raise apiNoToken (Except.ok none) 5 (by norm_num)).1,
    (C10_submission_details_no_raise apiNoToken (Except.ok none) 5
      (by norm_num)).2.1 rfl⟩
